import Mathlib

/-!
Shallow embedding of the podimpulse-api time-series pipeline, translated from
the Python sources:

  * `src/utils/csv_parser.py` — cadence validation and daily resampling
  * `src/utils/spike_clustering.py` — cluster-count selection (elbow method)
  * `src/utils/missing_episodes.py` — missing-episode inference
  * `src/functions/v1/regression.py` — feature engineering, cross-validation
    configuration, and artifact persistence
  * `src/functions/v1/predict.py` — the autoregressive forecast loop and the
    release-date optimizer branch
  * `src/utils/retry.py` — bounded retry with backoff

Conventions: pandas float values are modelled as rationals (ℚ); timestamps are
modelled as rational day numbers (days since the epoch, fractional part is the
time of day), so pandas normalize, which truncates to midnight, is Rat.floor;
calendar dates produced by the day-stepping forecast loop are plain integers.
Fallible library calls (scikit-learn KMeans, blob storage) are modelled with
Except. External numeric library results that the control flow never inspects
(KneeLocator output, trigonometric Fourier values, the fitted ridge model) are
taken as parameters, with their documented guarantees as hypotheses where a
theorem needs them.
-/

/-- Decidable equality for Except results, used to evaluate the embedded
fallible calls on concrete inputs. -/
instance {ε α : Type} [DecidableEq ε] [DecidableEq α] : DecidableEq (Except ε α) := fun a b =>
  match a, b with
  | .ok x, .ok y =>
    if h : x = y then isTrue (by rw [h]) else isFalse fun hh => h (Except.ok.inj hh)
  | .error e, .error f =>
    if h : e = f then isTrue (by rw [h]) else isFalse fun hh => h (Except.error.inj hh)
  | .ok _, .error _ => isFalse fun hh => Except.noConfusion hh
  | .error _, .ok _ => isFalse fun hh => Except.noConfusion hh

/-- Least element of a list of rationals (pandas min over a nonempty window;
the empty case never arises because rolling windows use min_periods=1). -/
def listMin : List ℚ → ℚ
  | [] => 0
  | h :: t => t.foldl min h

/-- Greatest element of a list of rationals. -/
def listMax : List ℚ → ℚ
  | [] => 0
  | h :: t => t.foldl max h

/-- pandas median: sort ascending, take the middle element for odd length and
the mean of the two middle elements for even length. The empty case (pandas
NaN) is mapped to 0 and is unreachable on every path that uses it here. -/
def medianQ (xs : List ℚ) : ℚ :=
  let s := List.insertionSort (· ≤ ·) xs
  if s.length % 2 = 1 then s.getD (s.length / 2) 0
  else (s.getD (s.length / 2 - 1) 0 + s.getD (s.length / 2) 0) / 2

/-- Arithmetic mean of a list of rationals (pandas mean; 0 for the empty
list, which pandas would report as NaN). -/
def meanQ (xs : List ℚ) : ℚ := xs.sum / xs.length

/-- pandas Series.shift(1): row 0 becomes NaN (none), row i takes the value of
row i-1, length unchanged. -/
def shift1 (xs : List (Option ℚ)) : List (Option ℚ) := (none :: xs).take xs.length

/-! ## csv_parser.py — validate_downloads_dataframe and the daily resampler -/

/-- A parsed CSV row after the coercion steps of validate_downloads_dataframe
(lines 204-205): date and downloads are none when unparseable (NaT / NaN). -/
structure CsvRow where
  date : Option ℚ
  downloads : Option ℚ
deriving DecidableEq, Repr

/-- A row that survived dropna: both fields present. -/
structure CleanRow where
  date : ℚ
  downloads : ℚ
deriving DecidableEq, Repr

/-- The ValueError variants raised by validate_downloads_dataframe, in source
order: invalid frequency_mode (line 196), fewer than two distinct dates
(line 210), too few periods to resample (line 218), non-daily cadence in
strict mode (line 231, carrying the detected median interval named in the
message), too few usable rows (line 240). -/
inductive ValidationError where
  | invalidFrequencyMode (mode : String)
  | tooFewDistinctDates
  | notEnoughPeriodsToResample
  | nonDailyCadence (medianDays : ℚ)
  | tooFewUsableRows (nRows minRows : Nat)
deriving DecidableEq, Repr

/-- The validated frame: cleaned rows plus the optional non-fatal frequency
warning that the resample branch stores in df.attrs (line 229); the warning
message names the detected median interval, carried here as its payload. -/
structure ValidatedFrame where
  rows : List CleanRow
  warning : Option ℚ
deriving DecidableEq, Repr

/-- Lines 203-206: drop rows with unparseable date or downloads, then sort by
date (sort_values). -/
def dropnaSorted (input : List CsvRow) : List CleanRow :=
  List.insertionSort (fun a b : CleanRow => a.date ≤ b.date)
    (input.filterMap fun r =>
      match r.date, r.downloads with
      | some d, some v => some ⟨d, v⟩
      | _, _ => none)

/-- Line 208: the distinct midnight-normalized dates, sorted ascending
(dt.normalize().drop_duplicates().sort_values()). -/
def uniqueDays (rows : List CleanRow) : List ℤ :=
  List.insertionSort (· ≤ ·) ((rows.map fun r => Rat.floor r.date).dedup)

/-- Line 212: consecutive gaps of the distinct normalized dates, in days. -/
def dayGaps (days : List ℤ) : List ℚ :=
  List.zipWith (fun a b => ((a - b : ℤ) : ℚ)) days.tail days

/-- Lines 212-213: the median interval in days between distinct dates. -/
def medianIntervalDays (rows : List CleanRow) : ℚ := medianQ (dayGaps (uniqueDays rows))

/-- Per-day group mean (line 112: groupby(level=0).agg mean on the numeric
Downloads column). -/
def groupMeanOn (rows : List CleanRow) (d : ℤ) : ℚ :=
  meanQ ((rows.filter fun r => Rat.floor r.date = d).map (·.downloads))

/-- Line 123: interpolate(method=time).ffill().bfill() at day d given the
known (day, mean) pairs, sorted ascending. Interior gaps get time-weighted
linear interpolation; a day before the first known day back-fills, after the
last known day forward-fills. -/
def interpAt (known : List (ℤ × ℚ)) (d : ℤ) : ℚ :=
  match known.find? fun p => p.1 = d with
  | some p => p.2
  | none =>
    match (known.filter fun p => p.1 < d).getLast?, (known.filter fun p => d < p.1).head? with
    | some p, some n => p.2 + (n.2 - p.2) * (((d - p.1 : ℤ) : ℚ) / ((n.1 - p.1 : ℤ) : ℚ))
    | some p, none => p.2
    | none, some n => n.2
    | none, none => 0

/-- Lines 97-127, resample_dataframe_to_daily: normalize dates to midnight,
aggregate duplicates by mean, reindex onto the full daily range from the
earliest to the latest day, and fill numeric values by time interpolation
with forward/backward fill at the edges. Empty input returns empty. -/
def resample_dataframe_to_daily (rows : List CleanRow) : List CleanRow :=
  let days := uniqueDays rows
  match days.head?, days.getLast? with
  | some mn, some mx =>
    let known := days.map fun d => (d, groupMeanOn rows d)
    (List.range ((mx - mn).toNat + 1)).map fun (i : Nat) =>
      ⟨((mn + (i : ℤ) : ℤ) : ℚ), interpAt known (mn + (i : ℤ))⟩
  | _, _ => []

/-- Lines 176-245, validate_downloads_dataframe: mode check, coercion and
dropna, the two-distinct-dates check, the median-cadence check with its
strict/resample branches, and the final minimum-row check. minRows and
maxMedianIntervalDays are the min_rows=14 and max_median_interval_days=3.0
parameters; mode is the frequency_mode string. -/
def validate_downloads_dataframe (input : List CsvRow) (minRows : Nat)
    (maxMedianIntervalDays : ℚ) (mode : String) : Except ValidationError ValidatedFrame :=
  if mode ∉ ["strict", "resample_daily"] then .error (.invalidFrequencyMode mode)
  else
    let df := dropnaSorted input
    let days := uniqueDays df
    if days.length < 2 then .error .tooFewDistinctDates
    else
      let med := medianQ (dayGaps days)
      if maxMedianIntervalDays < med then
        if mode = "resample_daily" then
          if days.length < 4 then .error .notEnoughPeriodsToResample
          else
            let df2 := resample_dataframe_to_daily df
            if df2.length < minRows then .error (.tooFewUsableRows df2.length minRows)
            else .ok ⟨df2, some med⟩
        else .error (.nonDailyCadence med)
      else
        if df.length < minRows then .error (.tooFewUsableRows df.length minRows)
        else .ok ⟨df, none⟩

/-! ## spike_clustering.py — cluster-count selection -/

/-- The ValueError scikit-learn KMeans.fit raises when the sample count is
below the requested cluster count. -/
inductive KMeansError where
  | tooFewSamples (nClusters nSamples : Nat)
deriving DecidableEq, Repr

/-- KMeans(n_clusters=k).fit on nSamples rows: raises when nSamples < k. -/
def kmeansFit (k nSamples : Nat) : Except KMeansError Unit :=
  if nSamples < k then .error (.tooFewSamples k nSamples) else .ok ()

/-- Lines 24-27 of determine_optimal_clusters: the inertia loop fits KMeans
for k = 1..maxClusters in order; the first failing fit aborts the call. The
inertia values themselves never influence control flow and are not modelled. -/
def ssdLoop (nSamples maxClusters : Nat) : Except KMeansError Unit :=
  (List.range' 1 maxClusters).foldlM (fun _ k => kmeansFit k nSamples) ()

/-- Lines 10-46, determine_optimal_clusters: run the inertia loop, then return
KneeLocator(...).knee or the default 2 when no knee is found (line 31). The
knee argument stands for the KneeLocator result, which the library draws from
the x-values 1..maxClusters when it finds one; it is only consulted after the
loop has succeeded. -/
def determine_optimal_clusters (nSamples maxClusters : Nat) (knee : Option Nat) :
    Except KMeansError Nat := do
  let _ ← ssdLoop nSamples maxClusters
  pure (knee.getD 2)

/-- Lines 107-132 of perform_spike_clustering, projected onto the chosen
cluster count: with no spike rows the function annotates everything false and
returns without clustering (ok none); otherwise it selects the cluster count
on the spike feature matrix (one row per spike) and runs the final
KMeans(optimal_clusters).fit_predict, either of which can raise. -/
def perform_spike_clustering (nSpikes maxClusters : Nat) (knee : Option Nat) :
    Except KMeansError (Option Nat) :=
  if nSpikes = 0 then .ok none
  else do
    let k ← determine_optimal_clusters nSpikes maxClusters knee
    let _ ← kmeansFit k nSpikes
    pure (some k)

/-! ## missing_episodes.py — mark_potential_missing_episodes -/

/-- A download-series row as consumed by mark_potential_missing_episodes:
its timestamp, the spike flags, and the recorded episode count. -/
structure DownloadRow where
  date : ℚ
  is_spike : Bool
  is_anomalous : Bool
  episodesReleased : ℤ
deriving DecidableEq, Repr

/-- pandas equality between a Timestamp and an integer index label: always
False (a Timestamp never compares equal to an int). -/
def timestampEqIntLabel (_dateNorm : ℤ) (_label : Nat) : Bool := false

/-- The containment test the source actually performs at line 42:
date_norm not in episode_dates. For a pandas Series, the in operator tests
membership in the INDEX, and episode_dates keeps its integer RangeIndex
0..n-1 after pd.to_datetime(...).dt.normalize(), so the normalized Timestamp
is compared against integer labels and never matches. -/
def timestampInRangeIndex (dateNorm : ℤ) (indexSize : Nat) : Bool :=
  (List.range indexSize).any (timestampEqIntLabel dateNorm)

/-- Lines 37-49, the row predicate the code computes: is_spike, not
is_anomalous, recorded count equal 0, and the (index-based, see above)
not-in test against the episode_dates Series of length episode_dates.length. -/
def potential_missing_row (episode_dates : List ℚ) (row : DownloadRow) : Bool :=
  let dateNorm := Rat.floor row.date
  let notInEpisodes := !(timestampInRangeIndex dateNorm episode_dates.length)
  row.is_spike && !row.is_anomalous && (row.episodesReleased == 0) && notInEpisodes

/-- Modelled from the spec (and from the docstring of
mark_potential_missing_episodes): the intended predicate tests the normalized
date against the VALUES of the normalized episode-date set, not the index. -/
def spec_potential_missing_row (episode_dates : List ℚ) (row : DownloadRow) : Bool :=
  row.is_spike && !row.is_anomalous && (row.episodesReleased == 0)
    && !((episode_dates.map Rat.floor).contains (Rat.floor row.date))

/-- Lines 54-60: deduced episodes released = recorded count + 1 when flagged. -/
def deduced_episodes_released (episode_dates : List ℚ) (row : DownloadRow) : ℤ :=
  row.episodesReleased + (if potential_missing_row episode_dates row then 1 else 0)

/-! ## regression.py — rolling predictors and cross-validation configuration -/

/-- The trailing 7-day window of the target ending at row i inclusive
(rolling(window=7, min_periods=1)): the last min(i+1, 7) values up to i. -/
def rollingWindow7 (y : List ℚ) (i : Nat) : List ℚ :=
  (y.take (i + 1)).drop (i + 1 - 7)

/-- Line 91: the rolling statistic column as created, already shifted once
(.shift(1)) so that row i holds the statistic over the window ending at
row i-1, and row 0 holds NaN. -/
def rollingStatShifted (stat : List ℚ → ℚ) (y : List ℚ) : List (Option ℚ) :=
  shift1 ((List.range y.length).map fun i => some (stat (rollingWindow7 y i)))

/-- Lines 172-175: the blanket anti-leakage pass then shifts every column
whose name starts with rolling_ a second time; this is the value the
rolling_min_7 / rolling_max_7 / rolling_median_7 predictors hold when the
model is trained. -/
def rollingPredictor (stat : List ℚ → ℚ) (y : List ℚ) : List (Option ℚ) :=
  shift1 (rollingStatShifted stat y)

/-- The scikit-learn error raised by cross-validation when the requested
number of splits exceeds the number of samples. -/
inductive SklearnError where
  | tooFewSamplesForCV (folds nSamples : Nat)
deriving DecidableEq, Repr

/-- The cv argument passed to RFECV at line 249: the constant 5. -/
def rfecvFoldCount : Nat := 5

/-- The cv argument passed to RidgeCV at line 272: the constant 5. -/
def ridgecvFoldCount : Nat := 5

/-- KFold(n_splits=folds).split on nSamples rows: raises when the sample
count is below the fold count. -/
def runKFoldCV (folds nSamples : Nat) : Except SklearnError Unit :=
  if nSamples < folds then .error (.tooFewSamplesForCV folds nSamples) else .ok ()

/-- Line 250, rfecv.fit(X, y): cross-validates with the configured constant
fold count over however many rows survived cleaning. -/
def rfecvFit (nSamples : Nat) : Except SklearnError Unit :=
  runKFoldCV rfecvFoldCount nSamples

/-- Line 273, ridge_cv.fit: same fold behavior for the regularization search. -/
def ridgecvFit (nSamples : Nat) : Except SklearnError Unit :=
  runKFoldCV ridgecvFoldCount nSamples

/-! ## retry.py and the artifact-persistence tail of regression.py -/

/-- The failure save_to_blob_storage surfaces (a RuntimeError). -/
inductive StorageError where
  | putFailed
deriving DecidableEq, Repr

/-- retry.py lines 35-56: attempts run 1..maxAttempts; a success returns
immediately; the failure of the final attempt is re-raised. call gives the
outcome of each attempt; the sleeps do not affect the result. remaining is
the number of attempts still allowed (0 is unreachable from
retry_with_backoff since max_attempts is 3). -/
def retryGo (call : Nat → Except StorageError Unit) : Nat → Nat → Except StorageError Unit
  | _, 0 => .error .putFailed
  | attempt, 1 => call attempt
  | attempt, remaining + 2 =>
    match call attempt with
    | .ok u => .ok u
    | .error _ => retryGo call (attempt + 1) (remaining + 1)

/-- retry_with_backoff(...) with max_attempts=3, as configured for the model
save at lines 328-334 of regression.py. -/
def saveModelWithRetry (call : Nat → Except StorageError Unit) : Except StorageError Unit :=
  retryGo call 1 3

/-- The observable outcome of the training request tail: HTTP status, whether
the body reports success, and whether the artifact reached storage. -/
structure TrainingOutcome where
  status : Nat
  reportedSuccess : Bool
  artifactPersisted : Bool
deriving DecidableEq, Repr

/-- Lines 313-359 of regression.py: the whole model save, retries included,
sits inside try/except whose handler only logs (lines 336-337); control then
falls through to the 200 success response built at lines 345-359. -/
def regressionSaveAndRespond (call : Nat → Except StorageError Unit) : TrainingOutcome :=
  match saveModelWithRetry call with
  | .ok _ => ⟨200, true, true⟩
  | .error _ => ⟨200, true, false⟩

/-! ## predict.py — the autoregressive forecast loop and the optimizer -/

/-- A history or forecast row: calendar day, target value (Downloads), and
the Episodes Released indicator. Artifact feature columns that the loop never
recomputes keep the values of the copied last seed row throughout and are
absorbed into the abstract model function. -/
structure ForecastRow where
  date : ℤ
  value : ℚ
  episodesReleased : Nat
deriving DecidableEq, Repr

/-- The feature values the loop recomputes at every step (lines 107-144 of
the inner run and 164-208 of the first pass) before scaling and predicting. -/
structure FeatureVector where
  episodesReleased : Nat
  lag1 : ℚ
  lag7 : ℚ
  lag14 : ℚ
  rollingMin7 : ℚ
  rollingMax7 : ℚ
  rollingMedian7 : ℚ
  expandingMean : ℚ
  isWeekend : Bool
  fourier : List ℚ
  epLag1 : ℚ
  epLag2 : ℚ
  epLag3 : ℚ
  epLag7 : ℚ
  epRolling7 : ℚ

/-- The numeric externals of the loop: the Fourier harmonic values (np.sin and
np.cos of the day of year of a date), which the control flow never inspects. -/
structure NumericEnv where
  fourierTerms : ℤ → List ℚ

/-- history[target].iloc[-lag] when the history is long enough, else the NaN
that the fill step (lines 206-208) replaces with 0. -/
def lagOrZero (vals : List ℚ) (lag : Nat) : ℚ :=
  if lag ≤ vals.length then vals.getD (vals.length - lag) 0 else 0

/-- The trailing window iloc[-7:] when the history has at least 7 rows, else
the whole history (lines 176, 203). -/
def trailing7 (vals : List ℚ) : List ℚ := vals.drop (vals.length - 7)

/-- pandas Timestamp.weekday (Monday=0): day 0 of the epoch was a Thursday. -/
def weekdayOf (d : ℤ) : ℤ := (d + 3).emod 7

/-- One simulation step (lines 95-150 of the inner run; the first pass at
lines 152-216 is the releaseIndices = none instance): copy the last history
row, advance the date one day, set the release indicator from the explicit
release-date set (or the optimized indices on the second pass), recompute
every lag, rolling, expanding, weekend and Fourier feature from the history
alone, predict, and return the completed row. -/
def forecastStep (env : NumericEnv) (model : FeatureVector → ℚ)
    (releaseDates : List ℤ) (releaseIndices : Option (List Nat)) (i : Nat)
    (history : List ForecastRow) : ForecastRow :=
  let last := history.getLastD ⟨0, 0, 0⟩
  let predDate := last.date + 1
  let released : Nat :=
    if releaseDates.contains predDate ||
        (match releaseIndices with | some idxs => idxs.contains i | none => false) then 1 else 0
  let y := history.map (·.value)
  let ep := history.map fun r => (r.episodesReleased : ℚ)
  let fv : FeatureVector :=
    { episodesReleased := released
      lag1 := lagOrZero y 1
      lag7 := lagOrZero y 7
      lag14 := lagOrZero y 14
      rollingMin7 := listMin (trailing7 y)
      rollingMax7 := listMax (trailing7 y)
      rollingMedian7 := medianQ (trailing7 y)
      expandingMean := meanQ y
      isWeekend := 5 ≤ weekdayOf predDate
      fourier := env.fourierTerms predDate
      epLag1 := lagOrZero ep 1
      epLag2 := lagOrZero ep 2
      epLag3 := lagOrZero ep 3
      epLag7 := lagOrZero ep 7
      epRolling7 := (trailing7 ep).sum }
  { date := predDate, value := model fv, episodesReleased := released }

/-- The forecast loop body: i is the current iteration index, fuel the number
of remaining iterations; each produced row is appended to the history that
feeds the next step. -/
def runForecastGo (env : NumericEnv) (model : FeatureVector → ℚ)
    (releaseDates : List ℤ) (releaseIndices : Option (List Nat)) :
    Nat → Nat → List ForecastRow → List ForecastRow
  | _, 0, _ => []
  | i, fuel + 1, history =>
    let row := forecastStep env model releaseDates releaseIndices i history
    row :: runForecastGo env model releaseDates releaseIndices (i + 1) fuel (history ++ [row])

/-- run_forecast (lines 91-151) and the first-pass loop (lines 152-216):
forecast days steps starting from the seed history. -/
def runForecast (env : NumericEnv) (model : FeatureVector → ℚ)
    (releaseDates : List ℤ) (releaseIndices : Option (List Nat))
    (days : Nat) (seed : List ForecastRow) : List ForecastRow :=
  runForecastGo env model releaseDates releaseIndices 0 days seed

/-- Sum of the predicted target over the horizon (line 259). -/
def sumValues (rows : List ForecastRow) : ℚ := (rows.map (·.value)).sum

/-- Line 223: how many forecast days carry Episodes Released == 1. -/
def countReleasedDays (rows : List ForecastRow) : Nat :=
  (rows.filter fun r => r.episodesReleased = 1).length

/-- The response payload of the predict endpoint: the predicted series, the
total, and the optimized_release_dates field, present only when the optimizer
ran. -/
structure PredictResponse where
  rows : List ForecastRow
  totalDownloads : ℚ
  optimizedReleaseDates : Option (List ℤ)
deriving DecidableEq

/-- Lines 37-268 of predict.py, the successful-POST path: build the distinct
release-date set, run the first 60-day pass, auto-count the target episode
number when both inputs were omitted (lines 42-45, 222-223), and when the
requested episode count exceeds the explicit release-date count rank the
non-release candidate days by predicted value (stable descending, line 229),
choose the shortfall many, and re-run the horizon with those indices forced
to release (lines 225-246); otherwise return the single-pass result. The
optimized_release_dates field is attached only in the optimizer branch
(lines 267-268). -/
def predictEndpoint (env : NumericEnv) (model : FeatureVector → ℚ)
    (episodes : Option Nat) (releaseDates : List ℤ) (seed : List ForecastRow) :
    PredictResponse :=
  let releaseSet := releaseDates.dedup
  let count := releaseSet.length
  let firstPass := runForecast env model releaseSet none 60 seed
  let episodesEff : Option Nat :=
    match episodes with
    | some e => some e
    | none => if releaseDates.isEmpty then some (countReleasedDays firstPass) else none
  match episodesEff with
  | some e =>
    if count < e then
      let candidates := firstPass.enum.filter fun p => !(releaseSet.contains p.2.date)
      let ranked := List.insertionSort (fun a b : Nat × ForecastRow => b.2.value ≤ a.2.value) candidates
      let chosen := (ranked.take (e - count)).map (·.1)
      let optDates := List.insertionSort (· ≤ ·)
        ((chosen.map fun i => (firstPass.getD i ⟨0, 0, 0⟩).date).dedup)
      let second := runForecast env model releaseSet (some chosen) 60 seed
      ⟨second, sumValues second, some optDates⟩
    else ⟨firstPass, sumValues firstPass, none⟩
  | none => ⟨firstPass, sumValues firstPass, none⟩

/-- A concrete numeric environment (all Fourier terms zero), used only to
instantiate the abstract parameters in evaluation witnesses. -/
def constNumericEnv : NumericEnv := ⟨fun _ => []⟩

/-- A concrete fitted model (constant prediction), used only to instantiate
the abstract model parameter in evaluation witnesses. -/
def zeroModel : FeatureVector → ℚ := fun _ => 0

/-! ## Theorems -/

/-- C3: the code marks a spike day with zero recorded episodes as a potential
missing episode even when its midnight-normalized date IS in the known
episode-date set (here the set is exactly the day 5 and the row falls on day
5), because the not-in test at line 42 of missing_episodes.py consults the
integer RangeIndex of the episode_dates Series instead of its values; the
predicate stated by the claim (and by the docstring of the function) is false
on this row while the code computes true. -/
theorem claim_C3_membership_ignored :
    potential_missing_row [(5 : ℚ)] ⟨5, true, false, 0⟩ = true
      ∧ spec_potential_missing_row [(5 : ℚ)] ⟨5, true, false, 0⟩ = false := by
  decide

/-- C4: with exactly one spike row, perform_spike_clustering does not force
the cluster count to 1; determine_optimal_clusters fits KMeans for k = 1..10
and the k = 2 fit raises (1 sample < 2 clusters), so the call errors instead
of returning 1 — contradicting the spec and the repository test
test_determine_optimal_clusters_single_sample. The KneeLocator argument is
irrelevant: the loop raises before it is ever consulted. -/
theorem claim_C4_single_spike_errors :
    perform_spike_clustering 1 10 none = .error (.tooFewSamples 2 1) := by
  decide

/-- C10 counterexample: for the nonempty single-sample feature array and
max_clusters = 2 ≥ 1, cluster-count selection does not return any integer k
at all — the k = 2 KMeans fit raises first — refuting the claim that it
always returns 1 ≤ k ≤ max_clusters (shown with an in-range knee value, so
the failure is independent of the elbow search). -/
theorem claim_C10_counterexample :
    determine_optimal_clusters 1 2 (some 1) = .error (.tooFewSamples 2 1) := by
  decide

/-- C7 counterexample: the cross-validation fold count of the feature
selection step is the constant 5, which is not bounded by an available row
count of 3, and fitting RFECV on 3 rows raises instead of degrading. -/
theorem claim_C7_counterexample :
    ¬ rfecvFoldCount ≤ 3 ∧ rfecvFit 3 = .error (.tooFewSamplesForCV 5 3) := by
  decide

/-- C7 amended: the fold count used by both the feature-selection and the
regularization cross-validation is the constant 5, independent of the row
count, and on any input with fewer than 5 usable rows both fits raise the
too-few-samples error (which the endpoint surfaces as its generic 500). -/
theorem claim_C7_folds_constant (nSamples : Nat) (h : nSamples < 5) :
    rfecvFoldCount = 5 ∧ ridgecvFoldCount = 5
      ∧ rfecvFit nSamples = .error (.tooFewSamplesForCV 5 nSamples)
      ∧ ridgecvFit nSamples = .error (.tooFewSamplesForCV 5 nSamples) := by
  refine ⟨rfl, rfl, ?_, ?_⟩ <;>
    simp [rfecvFit, ridgecvFit, runKFoldCV, rfecvFoldCount, ridgecvFoldCount, h]

/-- Witness for claim_C7_folds_constant at 3 rows. -/
theorem claim_C7_folds_constant_witness :
    3 < 5 ∧ (rfecvFoldCount = 5 ∧ ridgecvFoldCount = 5
      ∧ rfecvFit 3 = .error (.tooFewSamplesForCV 5 3)
      ∧ ridgecvFit 3 = .error (.tooFewSamplesForCV 5 3)) :=
  ⟨by decide, claim_C7_folds_constant 3 (by decide)⟩

/-- C8 counterexample: when every save attempt fails (so the retries are
exhausted), the training request still answers 200 with a success body and
the artifact is not persisted — there is no 500 StorageError response. -/
theorem claim_C8_counterexample :
    regressionSaveAndRespond (fun _ => .error .putFailed) = ⟨200, true, false⟩ := by
  decide

/-- C8 amended: whatever the storage attempts do, the training response is
status 200 and reports success — the try/except around the save only logs —
and the artifact is persisted exactly when the bounded retry succeeded. -/
theorem claim_C8_save_best_effort (call : Nat → Except StorageError Unit) :
    (regressionSaveAndRespond call).status = 200
      ∧ (regressionSaveAndRespond call).reportedSuccess = true
      ∧ ((regressionSaveAndRespond call).artifactPersisted
          ↔ saveModelWithRetry call = .ok ()) := by
  cases h : saveModelWithRetry call with
  | ok u => cases u; simp [regressionSaveAndRespond, h]
  | error e => simp [regressionSaveAndRespond, h]

/-- C1 counterexample: for the target series 3, 2, 1 the rolling-min
predictor at row 2 holds the statistic over the window ending at row 0 (the
value 3), not the statistic over the window ending at row 1 (the value 2):
the column built already shifted at line 91 of regression.py is shifted a
second time by the blanket pass at lines 172-175. -/
theorem claim_C1_counterexample :
    (rollingPredictor listMin [3, 2, 1]).getD 2 none
      ≠ some (listMin (rollingWindow7 [3, 2, 1] 1)) := by
  decide

/-- The inertia loop succeeds whenever every candidate cluster count has
enough samples. -/
theorem foldlM_kmeansFit_ok (nSamples : Nat) :
    ∀ l : List Nat, (∀ k ∈ l, k ≤ nSamples) →
      (l.foldlM (fun _ k => kmeansFit k nSamples) () : Except KMeansError Unit) = .ok () := by
  intro l
  induction l with
  | nil => intro _; rfl
  | cons k t ih =>
    intro hall
    have hk : ¬ nSamples < k := not_lt.mpr (hall k (by simp))
    simp only [List.foldlM_cons, kmeansFit, if_neg hk]
    exact ih fun x hx => hall x (by simp [hx])

/-- ssdLoop completes without error when the sample count is at least the
largest candidate cluster count. -/
theorem ssdLoop_ok (nSamples maxClusters : Nat) (hsamp : maxClusters ≤ nSamples) :
    ssdLoop nSamples maxClusters = .ok () := by
  refine foldlM_kmeansFit_ok nSamples _ fun k hk => ?_
  have := (List.mem_range'_1.mp hk).2
  omega

/-- C10 amended: when the spike feature array has at least max_clusters
samples and max_clusters is at least 2, cluster-count selection succeeds and
returns the knee when one is found (which the elbow search draws from the
candidate range 1..max_clusters) and the hard default 2 otherwise, so the
result lies in 1..max_clusters. With fewer samples than max_clusters the
KMeans loop raises instead (see the counterexample), and with max_clusters =
1 the no-knee default 2 would exceed the bound. -/
theorem claim_C10_bounded (nSamples maxClusters : Nat) (knee : Option Nat)
    (hsamp : maxClusters ≤ nSamples) (hmax : 2 ≤ maxClusters)
    (hknee : ∀ k, knee = some k → 1 ≤ k ∧ k ≤ maxClusters) :
    determine_optimal_clusters nSamples maxClusters knee = .ok (knee.getD 2)
      ∧ 1 ≤ knee.getD 2 ∧ knee.getD 2 ≤ maxClusters := by
  refine ⟨?_, ?_, ?_⟩
  · simp [determine_optimal_clusters, ssdLoop_ok nSamples maxClusters hsamp]
  · cases knee with
    | none => simp
    | some k => simpa using (hknee k rfl).1
  · cases knee with
    | none => simpa using hmax
    | some k => simpa using (hknee k rfl).2

/-- Witness for claim_C10_bounded: two samples, max_clusters 2, no knee. -/
theorem claim_C10_bounded_witness :
    2 ≤ 2
      ∧ (determine_optimal_clusters 2 2 none = .ok ((none : Option Nat).getD 2)
        ∧ 1 ≤ (none : Option Nat).getD 2 ∧ (none : Option Nat).getD 2 ≤ 2) :=
  ⟨by decide, claim_C10_bounded 2 2 none (by decide) (by decide)
    (fun k h => by cases h)⟩

/-- shift1 keeps the length of the column. -/
theorem shift1_length (xs : List (Option ℚ)) : (shift1 xs).length = xs.length := by
  simp [shift1]

/-- Entry i of a shifted column: none at row 0, the previous entry otherwise,
nothing past the end. -/
theorem shift1_getElem? (xs : List (Option ℚ)) (i : Nat) :
    (shift1 xs)[i]? = if i < xs.length then (none :: xs)[i]? else none := by
  simp [shift1, List.getElem?_take]

/-- In-range entries of a shifted column, through getD. -/
theorem shift1_getD (xs : List (Option ℚ)) (i : Nat) (hi : i < xs.length) :
    (shift1 xs).getD i none = if i = 0 then none else xs.getD (i - 1) none := by
  cases i with
  | zero =>
    simp only [List.getD_eq_getElem?_getD, shift1_getElem?, if_pos hi,
      List.getElem?_cons_zero, Option.getD_some]
    simp
  | succ j =>
    simp only [List.getD_eq_getElem?_getD, shift1_getElem?, if_pos hi,
      List.getElem?_cons_succ]
    simp

/-- In-range entries of a column built by mapping over the row indices. -/
theorem map_range_getD (f : Nat → Option ℚ) (n i : Nat) (h : i < n) :
    ((List.range n).map f).getD i none = f i := by
  simp [List.getD_eq_getElem?_getD, List.getElem?_range, h]

/-- C1 amended: the rolling min/max/median predictors are shifted twice —
once when the column is created at line 91 and once more by the blanket
anti-leakage pass at lines 172-175 — so for every row i the trained-on
predictor value is the statistic over the trailing 7-day window ending at row
i-2, and the first two rows are undefined (NaN, later dropped). -/
theorem claim_C1_rolling_shifted_twice (stat : List ℚ → ℚ) (y : List ℚ) (i : Nat)
    (hi : i < y.length) :
    (rollingPredictor stat y).getD i none =
      if i < 2 then none else some (stat (rollingWindow7 y (i - 2))) := by
  have hA : (rollingStatShifted stat y).length = y.length := by
    simp [rollingStatShifted, shift1_length]
  rw [rollingPredictor, shift1_getD _ i (by rw [hA]; exact hi)]
  match i with
  | 0 => simp
  | (j + 1) =>
    rw [if_neg (Nat.succ_ne_zero j)]
    simp only [Nat.add_sub_cancel]
    rw [rollingStatShifted, shift1_getD _ j (by simp [shift1_length]; omega)]
    match j with
    | 0 => simp
    | (k + 1) =>
      rw [if_neg (Nat.succ_ne_zero k)]
      simp only [Nat.add_sub_cancel]
      rw [map_range_getD _ y.length k (by omega)]
      rw [if_neg (by omega)]
      have hk : k + 1 + 1 - 2 = k := by omega
      rw [hk]

/-- Witness for claim_C1_rolling_shifted_twice at the series 3, 2, 1, row 2. -/
theorem claim_C1_rolling_shifted_twice_witness :
    2 < ([3, 2, 1] : List ℚ).length
      ∧ (rollingPredictor listMin [3, 2, 1]).getD 2 none
          = (if 2 < 2 then none else some (listMin (rollingWindow7 [3, 2, 1] (2 - 2)))) :=
  ⟨by decide, claim_C1_rolling_shifted_twice listMin [3, 2, 1] 2 (by decide)⟩

/-- The simulated row always carries the date one day after the last history
row. -/
theorem forecastStep_date (env : NumericEnv) (model : FeatureVector → ℚ)
    (releaseDates : List ℤ) (releaseIndices : Option (List Nat)) (i : Nat)
    (history : List ForecastRow) :
    (forecastStep env model releaseDates releaseIndices i history).date
      = (history.getLastD ⟨0, 0, 0⟩).date + 1 := rfl

/-- Appending the new row makes it the last history row. -/
theorem getLastD_append_single (l : List ForecastRow) (r d : ForecastRow) :
    (l ++ [r]).getLastD d = r := by
  simp [List.getLastD_eq_getLast?, List.getLast?_concat]


/-- The forecast loop body produces one row per remaining iteration. -/
theorem runForecastGo_length (env : NumericEnv) (model : FeatureVector → ℚ)
    (releaseDates : List ℤ) (releaseIndices : Option (List Nat)) :
    ∀ (fuel i : Nat) (history : List ForecastRow),
      (runForecastGo env model releaseDates releaseIndices i fuel history).length = fuel := by
  intro fuel
  induction fuel with
  | zero => intro i history; rfl
  | succ n ih =>
    intro i history
    rw [runForecastGo]
    simp only [List.length_cons, ih]

/-- The dates produced by the forecast loop body: fuel consecutive days
starting one day after the last history row, whatever the iteration index,
release schedule and model. -/
theorem runForecastGo_dates (env : NumericEnv) (model : FeatureVector → ℚ)
    (releaseDates : List ℤ) (releaseIndices : Option (List Nat)) :
    ∀ (fuel i : Nat) (history : List ForecastRow),
      (runForecastGo env model releaseDates releaseIndices i fuel history).map (·.date)
        = (List.range fuel).map
            (fun (j : Nat) => (history.getLastD ⟨0, 0, 0⟩).date + ((j : ℤ) + 1)) := by
  intro fuel
  induction fuel with
  | zero => intro i history; rfl
  | succ n ih =>
    intro i history
    rw [runForecastGo, List.map_cons, forecastStep_date,
      ih (i + 1) (history ++ [forecastStep env model releaseDates releaseIndices i history]),
      getLastD_append_single, forecastStep_date]
    rw [List.range_succ_eq_map, List.map_cons, List.map_map]
    refine List.cons_eq_cons.mpr ⟨?_, ?_⟩
    · push_cast
      ring
    · apply List.map_congr_left
      intro j _
      simp only [Function.comp_apply]
      push_cast
      ring

/-- The last of the produced dates is the seed date plus the horizon (with
the seed date itself as the fallback for an empty horizon). -/
theorem range_map_getLastD (L : ℤ) (h : Nat) :
    (((List.range h).map (fun (j : Nat) => L + ((j : ℤ) + 1))).getLastD L) = L + h := by
  cases h with
  | zero => simp
  | succ n =>
    rw [List.range_succ, List.map_append]
    simp [List.getLastD_eq_getLast?, List.getLast?_concat]

/-- C2: for any seed history, model, release schedule and horizon h, the
forecast loop produces exactly h rows, the i-th produced date is the seed
date plus i+1 (so every row is exactly one day after the previous one), and
the last produced date is the seed date plus h. -/
theorem claim_C2_horizon (env : NumericEnv) (model : FeatureVector → ℚ)
    (releaseDates : List ℤ) (releaseIndices : Option (List Nat))
    (h : Nat) (seed : List ForecastRow) (_hseed : seed ≠ []) :
    (runForecast env model releaseDates releaseIndices h seed).length = h
      ∧ (runForecast env model releaseDates releaseIndices h seed).map (·.date)
          = (List.range h).map
              (fun (j : Nat) => (seed.getLastD ⟨0, 0, 0⟩).date + ((j : ℤ) + 1))
      ∧ ((runForecast env model releaseDates releaseIndices h seed).map (·.date)).getLastD
            ((seed.getLastD ⟨0, 0, 0⟩).date)
          = (seed.getLastD ⟨0, 0, 0⟩).date + h := by
  refine ⟨runForecastGo_length env model releaseDates releaseIndices h 0 seed, ?_, ?_⟩
  · exact runForecastGo_dates env model releaseDates releaseIndices h 0 seed
  · rw [runForecast, runForecastGo_dates env model releaseDates releaseIndices h 0 seed,
      range_map_getLastD]

/-- Witness for claim_C2_horizon: a one-row seed at day 10 and the default
60-day horizon. -/
theorem claim_C2_horizon_witness :
    ([⟨10, 7, 0⟩] : List ForecastRow) ≠ []
      ∧ ((runForecast constNumericEnv zeroModel [] none 60 [⟨10, 7, 0⟩]).length = 60
        ∧ (runForecast constNumericEnv zeroModel [] none 60 [⟨10, 7, 0⟩]).map (·.date)
            = (List.range 60).map
                (fun (j : Nat) =>
                  (([⟨10, 7, 0⟩] : List ForecastRow).getLastD ⟨0, 0, 0⟩).date + ((j : ℤ) + 1))
        ∧ ((runForecast constNumericEnv zeroModel [] none 60 [⟨10, 7, 0⟩]).map (·.date)).getLastD
              ((([⟨10, 7, 0⟩] : List ForecastRow).getLastD ⟨0, 0, 0⟩).date)
            = (([⟨10, 7, 0⟩] : List ForecastRow).getLastD ⟨0, 0, 0⟩).date + 60) :=
  ⟨by decide, claim_C2_horizon constNumericEnv zeroModel [] none 60 [⟨10, 7, 0⟩] (by decide)⟩

/-- C6: when the requested episode count equals the number of distinct
explicit release dates, the endpoint returns the single-pass forecast with
its total, and the optimized_release_dates field is absent — the candidate
ranking and the second simulation pass in the other branch are never taken. -/
theorem claim_C6_no_second_pass (env : NumericEnv) (model : FeatureVector → ℚ)
    (e : Nat) (releaseDates : List ℤ) (seed : List ForecastRow)
    (he : e = releaseDates.dedup.length) :
    predictEndpoint env model (some e) releaseDates seed =
      ⟨runForecast env model releaseDates.dedup none 60 seed,
        sumValues (runForecast env model releaseDates.dedup none 60 seed), none⟩ := by
  subst he
  simp [predictEndpoint]

/-- Witness for claim_C6_no_second_pass: one requested episode, one explicit
release date. -/
theorem claim_C6_no_second_pass_witness :
    1 = ([12] : List ℤ).dedup.length
      ∧ predictEndpoint constNumericEnv zeroModel (some 1) [12] [⟨10, 7, 0⟩] =
          ⟨runForecast constNumericEnv zeroModel ([12] : List ℤ).dedup none 60 [⟨10, 7, 0⟩],
            sumValues (runForecast constNumericEnv zeroModel ([12] : List ℤ).dedup none 60 [⟨10, 7, 0⟩]),
            none⟩ :=
  ⟨by decide, claim_C6_no_second_pass constNumericEnv zeroModel 1 [12] [⟨10, 7, 0⟩] (by decide)⟩

/-- The floor of an integral rational is the integer itself (normalizing a
midnight-aligned timestamp is the identity). -/
theorem rat_floor_intCast (n : ℤ) : Rat.floor ((n : ℤ) : ℚ) = n := by
  rw [Rat.floor_def']
  simp

/-- The median of the empty gap list (pandas NaN) is modelled as 0. -/
theorem medianQ_nil : medianQ [] = 0 := by
  norm_num [medianQ]

/-- With fewer than two distinct dates there are no gaps. -/
theorem dayGaps_short (days : List ℤ) (h : days.length < 2) : dayGaps days = [] := by
  match days with
  | [] => rfl
  | [d] => rfl
  | a :: b :: t => simp at h; omega

/-- A median interval above 3 forces at least two distinct dates. -/
theorem two_le_distinct_of_median_gt (rows : List CleanRow)
    (hmed : 3 < medianQ (dayGaps (uniqueDays rows))) : 2 ≤ (uniqueDays rows).length := by
  by_contra hlt
  rw [dayGaps_short _ (by omega), medianQ_nil] at hmed
  norm_num at hmed

/-- The distinct normalized dates come out sorted ascending. -/
theorem uniqueDays_sorted (rows : List CleanRow) :
    List.Sorted (· ≤ ·) (uniqueDays rows) :=
  List.sorted_insertionSort _ _

/-- The distinct normalized dates contain no duplicates. -/
theorem uniqueDays_nodup (rows : List CleanRow) : (uniqueDays rows).Nodup :=
  ((List.perm_insertionSort _ _).nodup_iff).mpr (List.nodup_dedup _)

/-- In a sorted list every element is at least the head. -/
theorem sorted_head?_le (l : List ℤ) (hs : List.Sorted (· ≤ ·) l) (mn : ℤ)
    (hh : l.head? = some mn) : ∀ x ∈ l, mn ≤ x := by
  match l with
  | [] => cases hh
  | a :: t =>
    cases hh
    intro x hx
    rcases List.mem_cons.mp hx with rfl | hx
    · exact le_refl x
    · exact (List.sorted_cons.mp hs).1 x hx

/-- In a sorted list every element is at most the last. -/
theorem sorted_le_getLast? :
    ∀ (l : List ℤ), List.Sorted (· ≤ ·) l → ∀ (mx : ℤ), l.getLast? = some mx →
      ∀ x ∈ l, x ≤ mx := by
  intro l
  induction l with
  | nil => intro _ mx hl; cases hl
  | cons a t ih =>
    intro hs mx hl x hx
    rcases t with _ | ⟨b, t2⟩
    · simp only [List.getLast?_singleton, Option.some.injEq] at hl
      rcases List.mem_singleton.mp hx with rfl
      omega
    · rw [List.getLast?_cons_cons] at hl
      have hs2 := (List.sorted_cons.mp hs).2
      rcases List.mem_cons.mp hx with rfl | hx2
      · have hmx : mx ∈ b :: t2 := by
          rcases List.mem_getLast?_eq_getLast (l := b :: t2) (x := mx)
            (Option.mem_def.mpr hl) with ⟨hne, hmxeq⟩
          rw [hmxeq]
          exact List.getLast_mem hne
        exact (List.sorted_cons.mp hs).1 mx hmx
      · exact ih hs2 mx hl x hx2

/-- Peeling one day off a consecutive day list. -/
theorem consecutive_map_cons (mn : ℤ) (n : Nat) :
    (List.range (n + 1)).map (fun (i : Nat) => mn + (i : ℤ))
      = mn :: (List.range n).map (fun (i : Nat) => (mn + 1) + (i : ℤ)) := by
  rw [List.range_succ_eq_map, List.map_cons, List.map_map]
  refine List.cons_eq_cons.mpr ⟨by norm_num, ?_⟩
  apply List.map_congr_left
  intro j _
  simp only [Function.comp_apply]
  push_cast
  ring

/-- Gaps of a cons-cons day list. -/
theorem dayGaps_cons_cons (a b : ℤ) (t : List ℤ) :
    dayGaps (a :: b :: t) = ((b - a : ℤ) : ℚ) :: dayGaps (b :: t) := rfl

/-- The gaps of n+1 consecutive days are n ones. -/
theorem dayGaps_consecutive :
    ∀ (n : Nat) (mn : ℤ),
      dayGaps ((List.range (n + 1)).map (fun (i : Nat) => mn + (i : ℤ)))
        = List.replicate n 1 := by
  intro n
  induction n with
  | zero => intro mn; rfl
  | succ k ih =>
    intro mn
    rw [consecutive_map_cons mn (k + 1), consecutive_map_cons (mn + 1) k,
      dayGaps_cons_cons, ← consecutive_map_cons (mn + 1) k, ih (mn + 1),
      List.replicate_succ]
    norm_num

/-- All-equal lists are sorted. -/
theorem sorted_replicate_one (k : Nat) :
    List.Sorted (· ≤ ·) (List.replicate k (1 : ℚ)) := by
  induction k with
  | zero => exact List.sorted_nil
  | succ n ih =>
    rw [List.replicate_succ]
    refine List.sorted_cons.mpr ⟨?_, ih⟩
    intro b hb
    rw [List.eq_of_mem_replicate hb]

/-- The median of at least one all-one gap is one. -/
theorem medianQ_replicate_one (k : Nat) (hk : 1 ≤ k) :
    medianQ (List.replicate k (1 : ℚ)) = 1 := by
  have hsort := (sorted_replicate_one k).insertionSort_eq
  have hget : ∀ i : Nat, i < k → (List.replicate k (1 : ℚ)).getD i 0 = 1 := by
    intro i hi
    rw [List.getD_eq_getElem?_getD, List.getElem?_replicate, if_pos hi]
    rfl
  rw [medianQ]
  simp only [hsort, List.length_replicate]
  by_cases hodd : k % 2 = 1
  · rw [if_pos hodd, hget (k / 2) (by omega)]
  · rw [if_neg hodd, hget (k / 2 - 1) (by omega), hget (k / 2) (by omega)]
    norm_num

/-- The resampled frame, made explicit once the day range is known. -/
theorem resample_eq (rows : List CleanRow) (mn mx : ℤ)
    (hh : (uniqueDays rows).head? = some mn) (hl : (uniqueDays rows).getLast? = some mx) :
    resample_dataframe_to_daily rows
      = (List.range ((mx - mn).toNat + 1)).map (fun (i : Nat) =>
          ⟨((mn + (i : ℤ) : ℤ) : ℚ),
            interpAt ((uniqueDays rows).map fun d => (d, groupMeanOn rows d)) (mn + (i : ℤ))⟩) := by
  rw [resample_dataframe_to_daily]
  simp only [hh, hl]

/-- The distinct normalized dates of the resampled frame are exactly the full
consecutive day range. -/
theorem uniqueDays_resample (rows : List CleanRow) (mn mx : ℤ)
    (hh : (uniqueDays rows).head? = some mn) (hl : (uniqueDays rows).getLast? = some mx) :
    uniqueDays (resample_dataframe_to_daily rows)
      = (List.range ((mx - mn).toNat + 1)).map (fun (i : Nat) => mn + (i : ℤ)) := by
  rw [uniqueDays, resample_eq rows mn mx hh hl, List.map_map]
  have hcomp :
      ((fun r : CleanRow => Rat.floor r.date) ∘ fun i : Nat =>
          (⟨((mn + (i : ℤ) : ℤ) : ℚ),
            interpAt ((uniqueDays rows).map fun d => (d, groupMeanOn rows d)) (mn + (i : ℤ))⟩ :
            CleanRow))
        = fun i : Nat => mn + (i : ℤ) := by
    funext i
    simp only [Function.comp_apply]
    exact rat_floor_intCast _
  rw [hcomp]
  have hnd : ((List.range ((mx - mn).toNat + 1)).map (fun (i : Nat) => mn + (i : ℤ))).Nodup := by
    refine List.Nodup.map ?_ (List.nodup_range ((mx - mn).toNat + 1))
    intro a b hab
    have hab2 : mn + (a : ℤ) = mn + (b : ℤ) := hab
    omega
  have hsorted :
      List.Sorted (· ≤ ·) ((List.range ((mx - mn).toNat + 1)).map (fun (i : Nat) => mn + (i : ℤ))) := by
    rw [List.Sorted, List.pairwise_map]
    refine (List.pairwise_le_range _).imp ?_
    intro a b hab
    show mn + (a : ℤ) ≤ mn + (b : ℤ)
    omega
  rw [List.dedup_eq_self.mpr hnd]
  exact hsorted.insertionSort_eq

/-- A sorted duplicate-free integer list is no longer than its day span plus
one. -/
theorem sorted_nodup_length_le (l : List ℤ) (mn mx : ℤ)
    (hs : List.Sorted (· ≤ ·) l) (hnd : l.Nodup)
    (hh : l.head? = some mn) (hl : l.getLast? = some mx) :
    l.length ≤ (mx - mn).toNat + 1 := by
  have hsub : l ⊆ (List.range ((mx - mn).toNat + 1)).map (fun (i : Nat) => mn + (i : ℤ)) := by
    intro x hx
    have h1 := sorted_head?_le l hs mn hh x hx
    have h2 := sorted_le_getLast? l hs mx hl x hx
    exact List.mem_map.mpr ⟨(x - mn).toNat, List.mem_range.mpr (by omega), by omega⟩
  have hle := (List.subperm_of_subset hnd hsub).length_le
  simpa using hle

/-- C5: on any input whose cleaned series has a median inter-record gap above
3 days, strict mode rejects with the cadence error naming the detected
median; and, given at least 4 distinct periods, the resampled frame has daily
cadence (median gap exactly 1), is at least as long as the distinct-date
count, and resample mode returns it carrying the non-fatal warning (or fails
the separate minimum-row check, exactly as the source code orders the two). -/
theorem claim_C5_nondaily_cadence (input : List CsvRow) (minRows : Nat)
    (hmed : 3 < medianIntervalDays (dropnaSorted input)) :
    validate_downloads_dataframe input minRows 3 "strict"
        = .error (.nonDailyCadence (medianIntervalDays (dropnaSorted input)))
      ∧ (4 ≤ (uniqueDays (dropnaSorted input)).length →
          medianIntervalDays (resample_dataframe_to_daily (dropnaSorted input)) = 1
            ∧ (uniqueDays (dropnaSorted input)).length
                ≤ (resample_dataframe_to_daily (dropnaSorted input)).length
            ∧ validate_downloads_dataframe input minRows 3 "resample_daily"
                = if (resample_dataframe_to_daily (dropnaSorted input)).length < minRows
                  then .error (.tooFewUsableRows
                      (resample_dataframe_to_daily (dropnaSorted input)).length minRows)
                  else .ok ⟨resample_dataframe_to_daily (dropnaSorted input),
                      some (medianIntervalDays (dropnaSorted input))⟩) := by
  have h2 : 2 ≤ (uniqueDays (dropnaSorted input)).length :=
    two_le_distinct_of_median_gt _ hmed
  have hmed' : 3 < medianQ (dayGaps (uniqueDays (dropnaSorted input))) := hmed
  constructor
  · simp only [validate_downloads_dataframe]
    rw [if_neg (by decide), if_neg (by omega), if_pos hmed', if_neg (by decide)]
    rfl
  · intro h4
    have hne : uniqueDays (dropnaSorted input) ≠ [] := by
      intro h
      rw [h] at h2
      simp at h2
    obtain ⟨mn, hmn⟩ : ∃ mn, (uniqueDays (dropnaSorted input)).head? = some mn := by
      cases h : uniqueDays (dropnaSorted input) with
      | nil => exact absurd h hne
      | cons a t => exact ⟨a, rfl⟩
    have hmx := List.getLast?_eq_getLast (uniqueDays (dropnaSorted input)) hne
    have hspan : (uniqueDays (dropnaSorted input)).length
        ≤ (((uniqueDays (dropnaSorted input)).getLast hne) - mn).toNat + 1 :=
      sorted_nodup_length_le _ mn _ (uniqueDays_sorted _) (uniqueDays_nodup _) hmn hmx
    have hspan1 : 1 ≤ (((uniqueDays (dropnaSorted input)).getLast hne) - mn).toNat := by omega
    have hlen : (resample_dataframe_to_daily (dropnaSorted input)).length
        = (((uniqueDays (dropnaSorted input)).getLast hne) - mn).toNat + 1 := by
      rw [resample_eq (dropnaSorted input) mn _ hmn hmx]
      simp
    have hmedout :
        medianIntervalDays (resample_dataframe_to_daily (dropnaSorted input)) = 1 := by
      rw [medianIntervalDays, uniqueDays_resample (dropnaSorted input) mn _ hmn hmx,
        dayGaps_consecutive ((((uniqueDays (dropnaSorted input)).getLast hne) - mn).toNat) mn]
      exact medianQ_replicate_one _ hspan1
    refine ⟨hmedout, by omega, ?_⟩
    simp only [validate_downloads_dataframe]
    rw [if_neg (by decide), if_neg (by omega), if_pos hmed', if_pos trivial, if_neg (by omega)]
    rfl

/-- Witness for claim_C5_nondaily_cadence: a weekly series on days 0, 7, 14,
21 (median gap 7). -/
theorem claim_C5_nondaily_cadence_witness :
    3 < medianIntervalDays (dropnaSorted
        [⟨some 0, some 10⟩, ⟨some 7, some 20⟩, ⟨some 14, some 30⟩, ⟨some 21, some 40⟩])
      ∧ (validate_downloads_dataframe
            [⟨some 0, some 10⟩, ⟨some 7, some 20⟩, ⟨some 14, some 30⟩, ⟨some 21, some 40⟩] 14 3 "strict"
          = .error (.nonDailyCadence (medianIntervalDays (dropnaSorted
              [⟨some 0, some 10⟩, ⟨some 7, some 20⟩, ⟨some 14, some 30⟩, ⟨some 21, some 40⟩])))
        ∧ (4 ≤ (uniqueDays (dropnaSorted
              [⟨some 0, some 10⟩, ⟨some 7, some 20⟩, ⟨some 14, some 30⟩, ⟨some 21, some 40⟩])).length →
            medianIntervalDays (resample_dataframe_to_daily (dropnaSorted
                [⟨some 0, some 10⟩, ⟨some 7, some 20⟩, ⟨some 14, some 30⟩, ⟨some 21, some 40⟩])) = 1
              ∧ (uniqueDays (dropnaSorted
                  [⟨some 0, some 10⟩, ⟨some 7, some 20⟩, ⟨some 14, some 30⟩, ⟨some 21, some 40⟩])).length
                  ≤ (resample_dataframe_to_daily (dropnaSorted
                      [⟨some 0, some 10⟩, ⟨some 7, some 20⟩, ⟨some 14, some 30⟩, ⟨some 21, some 40⟩])).length
              ∧ validate_downloads_dataframe
                    [⟨some 0, some 10⟩, ⟨some 7, some 20⟩, ⟨some 14, some 30⟩, ⟨some 21, some 40⟩] 14 3 "resample_daily"
                  = if (resample_dataframe_to_daily (dropnaSorted
                        [⟨some 0, some 10⟩, ⟨some 7, some 20⟩, ⟨some 14, some 30⟩, ⟨some 21, some 40⟩])).length < 14
                    then .error (.tooFewUsableRows
                        (resample_dataframe_to_daily (dropnaSorted
                          [⟨some 0, some 10⟩, ⟨some 7, some 20⟩, ⟨some 14, some 30⟩, ⟨some 21, some 40⟩])).length 14)
                    else .ok ⟨resample_dataframe_to_daily (dropnaSorted
                          [⟨some 0, some 10⟩, ⟨some 7, some 20⟩, ⟨some 14, some 30⟩, ⟨some 21, some 40⟩]),
                        some (medianIntervalDays (dropnaSorted
                          [⟨some 0, some 10⟩, ⟨some 7, some 20⟩, ⟨some 14, some 30⟩, ⟨some 21, some 40⟩]))⟩)) :=
  ⟨by decide, claim_C5_nondaily_cadence
      [⟨some 0, some 10⟩, ⟨some 7, some 20⟩, ⟨some 14, some 30⟩, ⟨some 21, some 40⟩] 14 (by decide)⟩

/-- C9: with either allowed frequency mode and any cadence threshold or
minimum-row setting, the validator rejects with the distinct-dates error as
soon as fewer than two distinct normalized dates survive cleaning — before
the cadence or minimum-row checks can fire. -/
theorem claim_C9_two_distinct_required (input : List CsvRow) (minRows : Nat)
    (maxGap : ℚ) (mode : String)
    (hmode : mode = "strict" ∨ mode = "resample_daily")
    (h2 : (uniqueDays (dropnaSorted input)).length < 2) :
    validate_downloads_dataframe input minRows maxGap mode = .error .tooFewDistinctDates := by
  rcases hmode with h | h <;> subst h <;>
    simp only [validate_downloads_dataframe] <;>
    rw [if_neg (by decide), if_pos h2]

/-- Witness for claim_C9_two_distinct_required: a single usable row. -/
theorem claim_C9_two_distinct_required_witness :
    (("strict" : String) = "strict" ∨ ("strict" : String) = "resample_daily")
      ∧ (uniqueDays (dropnaSorted [⟨some 0, some 1⟩])).length < 2
      ∧ validate_downloads_dataframe [⟨some 0, some 1⟩] 14 3 "strict"
          = .error .tooFewDistinctDates :=
  ⟨Or.inl rfl, by decide,
    claim_C9_two_distinct_required [⟨some 0, some 1⟩] 14 3 "strict" (Or.inl rfl) (by decide)⟩
